import Mathlib

/-!
# Verification of `tools/repopick.py`

A shallow embedding of the query-resolution, change-selection and
project-path-mapping logic of `repopick.py`, together with theorems that
settle the specification's claims about it.

Python strings are embedded as `String`, Python lists as `List`, Python
dicts as association lists (`List (key × value)`; every dict built by the
program is keyed by revision hashes or project names, which are unique, so
first-match lookup coincides with Python's dict lookup).  Fallible Python
code is embedded in `Except PyErr`, where `PyErr` names the exception (or
`parser.error` exit) that the corresponding Python code raises.
-/

namespace Repopick

/-- The Python exceptions / fatal error exits the embedded code can produce. -/
inductive PyErr where
  /-- `IndexError`, e.g. `[][0]`. -/
  | indexError
  /-- `TypeError`, e.g. indexing a string with a string key. -/
  | typeError
  /-- `ValueError`, e.g. `int('x')` or tuple unpacking of the wrong arity. -/
  | valueError
  /-- `KeyError`: dict lookup of a missing key. -/
  | keyError
  /-- The `raise Exception(...)` for an unrecognized gerrit URL form. -/
  | configError
  /-- `parser.error(...)`: argparse prints usage and exits with status 2. -/
  | argparseError
deriving DecidableEq, Repr

/-! ## Python string primitives

The source only ever calls `str.split` with a single-character separator
(`'/'`, `'-'`, `':'`), so the embedding fixes the separator to a `Char`.
These are written by structural recursion over the character list so that
concrete instances evaluate by `rfl`/`decide`.
-/

/-- `s.split(sep)` on the character list: Python's `str.split` with an
explicit single-character separator (`''.split(c) == ['']`). -/
def pySplitChars (sep : Char) : List Char → List (List Char)
  | [] => [[]]
  | c :: cs =>
    let r := pySplitChars sep cs
    if c == sep then [] :: r
    else
      match r with
      | [] => [[c]]
      | h :: t => (c :: h) :: t

/-- Python `s.split(sep)` for a single-character separator. -/
def pySplit (s : String) (sep : Char) : List String :=
  (pySplitChars sep s.data).map List.asString

/-- Python `s.startswith(pre)`, i.e. `s[:len(pre)] == pre`. -/
def pyStartswith (s pre : String) : Bool :=
  s.data.take pre.data.length == pre.data

/-- Python truthiness of a string: non-empty. -/
def pyTruthyStr (s : String) : Bool :=
  !s.data.isEmpty

/-- Python truthiness of an optional string argument (argparse default
`None` is falsy, and so is an explicitly supplied empty string). -/
def pyTruthyOpt : Option String → Bool
  | none => false
  | some s => pyTruthyStr s

/-- Python truthiness of a list: non-empty. -/
def pyTruthyList : List String → Bool
  | [] => false
  | _ :: _ => true

/-- Python slice `s[a:b]` (for `a ≤ b` on character positions, which is the
only way the source uses it). -/
def pySlice (s : String) (a b : Nat) : String :=
  ⟨(s.data.drop a).take (b - a)⟩

/-- Python `'/'.join`-style join (mirrors `String.intercalate`, kept under a
name matching the Python idiom). -/
def pyJoin (sep : String) (parts : List String) : String :=
  String.intercalate sep parts

/-! ## Python `int()` on decimal strings -/

/-- The numeric value of a decimal digit character, if it is one. -/
def digitVal (c : Char) : Option Nat :=
  if c.isDigit then some (c.toNat - '0'.toNat) else none

/-- Left-to-right accumulation of a decimal numeral; `none` on the first
non-digit character. -/
def parseNatCore : List Char → Nat → Option Nat
  | [], acc => some acc
  | c :: cs, acc =>
    match digitVal c with
    | some d => parseNatCore cs (acc * 10 + d)
    | none => none

/-- Python `int(s)` on the decimal strings the program feeds it: an optional
leading `'-'` followed by at least one digit; anything else raises
`ValueError`. -/
def pyInt (s : String) : Except PyErr Int :=
  match s.data with
  | [] => Except.error PyErr.valueError
  | c :: cs =>
    if c = '-' then
      if cs = [] then Except.error PyErr.valueError
      else
        match parseNatCore cs 0 with
        | some n => Except.ok (-(n : Int))
        | none => Except.error PyErr.valueError
    else
      match parseNatCore (c :: cs) 0 with
      | some n => Except.ok (n : Int)
      | none => Except.error PyErr.valueError

/-! ## Data model -/

/-- One `{ref, url}` git fetch descriptor, as stored under a protocol name
inside a revision's `fetch` mapping. -/
structure GitFetch where
  ref : String
  url : String
deriving DecidableEq, Repr

/-- A revision's `fetch` field: protocol name (`"ssh"`, `"anonymous http"`,
…) to `GitFetch`. -/
abbrev FetchInfo := List (String × GitFetch)

/-- Value of the uniform `revisions` mapping: patch-set number plus fetch
info (the shape `fetch_query_via_ssh` constructs). -/
structure RevisionInfo where
  number : Int
  fetch : FetchInfo
deriving DecidableEq, Repr

/-- The uniform Review record both transports are supposed to produce. -/
structure Review where
  branch : String
  change_id : String
  current_revision : String
  number : Int
  revisions : List (String × RevisionInfo)
  subject : String
  project : String
  status : String
deriving DecidableEq, Repr

/-- Python dict lookup on an association list (keys unique in every dict
the program builds). -/
def dictGet {α : Type} (m : List (String × α)) (k : String) : Option α :=
  match m with
  | [] => none
  | (k', v) :: rest => if k' == k then some v else dictGet rest k

/-! ## Query Client: transport dispatch (`fetch_query`)

```python
def fetch_query(remote_url, query):
    if remote_url[0:2] == 'ssh':
        return fetch_query_via_ssh(remote_url, query)
    elif remote_url[0:4] == 'http':
        return fetch_query_via_http(remote_url, query.replace(' ', '+'))
    else:
        raise Exception('Gerrit URL should be in the form http[s]://hostname/ or ssh://[user@]host[:port]')
```
-/

/-- The transport `fetch_query` routes to. -/
inductive Transport where
  | ssh
  | http
deriving DecidableEq, Repr

/-- The routing decision of `fetch_query`: note the source compares the
two-character slice `remote_url[0:2]` against the three-character string
`'ssh'`. -/
def fetchQueryRoute (remote_url : String) : Except PyErr Transport :=
  if pySlice remote_url 0 2 == "ssh" then Except.ok Transport.ssh
  else if pySlice remote_url 0 4 == "http" then Except.ok Transport.http
  else Except.error PyErr.configError

/-! ## Query Client: SSH transport parsing (`fetch_query_via_ssh`)

The wire format itself (what the gerrit server sends over each transport)
is not part of src/; it is modelled from the spec below
(`GerritChange`, `sshWire`, `restWire`).  The record re-shaping is from the
source.
-/

/-- Modelled from the spec: one patch set of the underlying Gerrit change
that both transports describe (revision hash, patch-set number, fetch ref). -/
structure PatchSet where
  revision : String
  number : Int
  ref : String
deriving DecidableEq, Repr

/-- Modelled from the spec: the underlying Gerrit change both transports
describe.  `currentPatchSet` is the patch set the server considers current. -/
structure GerritChange where
  project : String
  branch : String
  id : String
  number : Int
  subject : String
  status : String
  currentPatchSet : PatchSet
  patchSets : List PatchSet
deriving DecidableEq, Repr

/-- Modelled from the spec: one element of the SSH query protocol's
`patchSets` list.  The SSH protocol serializes numbers as decimal strings
and does not carry a per-patch-set fetch url. -/
structure SshPatchSetData where
  revision : String
  number : String
  ref : String
deriving DecidableEq, Repr

/-- Modelled from the spec: one newline-delimited JSON record of the SSH
query response (`--format=JSON --patch-sets --current-patch-set`). -/
structure SshChangeData where
  branch : String
  id : String
  number : String
  currentPatchSetRevision : String
  patchSets : List SshPatchSetData
  subject : String
  project : String
  status : String
deriving DecidableEq, Repr

/-- Modelled from the spec: the SSH response record describing `c`. -/
def sshWire (c : GerritChange) : SshChangeData :=
  { branch := c.branch
    id := c.id
    number := toString c.number
    currentPatchSetRevision := c.currentPatchSet.revision
    patchSets := c.patchSets.map fun ps =>
      { revision := ps.revision, number := toString ps.number, ref := ps.ref }
    subject := c.subject
    project := c.project
    status := c.status }

/-- From the source: the per-patch-set transform inside
`fetch_query_via_ssh`'s dict comprehension, synthesizing the ssh fetch url
`ssh://{userhost}:{port}/{project}`.  `int(...)` failures raise
`ValueError`, which the enclosing `except ValueError` turns into a skipped
record. -/
def parseSshPatchSet (userhost port project : String) (ps : SshPatchSetData) :
    Except PyErr (String × RevisionInfo) := do
  let n ← pyInt ps.number
  Except.ok (ps.revision,
    { number := n
      fetch := [("ssh",
        { ref := ps.ref
          url := "ssh://" ++ userhost ++ ":" ++ port ++ "/" ++ project })] })

/-- From the source: the re-shaping of one SSH record into the uniform
Review shape (`fetch_query_via_ssh`'s loop body). -/
def parseSshReview (userhost port : String) (d : SshChangeData) :
    Except PyErr Review := do
  let num ← pyInt d.number
  let revs ← d.patchSets.mapM (parseSshPatchSet userhost port d.project)
  Except.ok
    { branch := d.branch
      change_id := d.id
      current_revision := d.currentPatchSetRevision
      number := num
      revisions := revs
      subject := d.subject
      project := d.project
      status := d.status }

/-! ## Query Client: HTTP transport parsing (`fetch_query_via_http`) -/

/-- Modelled from the spec: a value of the REST `revisions` mapping — the
patch-set number under the leading-underscore key `_number`, plus fetch
info. -/
structure RestRevisionInfo where
  _number : Int
  fetch : FetchInfo
deriving DecidableEq, Repr

/-- Modelled from the spec: one record of the REST `changes/?q=...`
response (after the anti-XSSI prefix is stripped and the JSON is decoded). -/
structure RestChangeData where
  branch : String
  change_id : String
  current_revision : String
  _number : Int
  revisions : List (String × RestRevisionInfo)
  subject : String
  project : String
  status : String
deriving DecidableEq, Repr

/-- Modelled from the spec: the REST response record describing `c` (the
REST protocol serves an `anonymous http` fetch entry per revision). -/
def restWire (c : GerritChange) : RestChangeData :=
  { branch := c.branch
    change_id := c.id
    current_revision := c.currentPatchSet.revision
    _number := c.number
    revisions := c.patchSets.map fun ps =>
      (ps.revision,
        { _number := ps.number
          fetch := [("anonymous http", { ref := ps.ref, url := c.project })] })
    subject := c.subject
    project := c.project
    status := c.status }

/-- The review record `fetch_query_via_http` returns: the REST record with
the top-level `_number` renamed to `number` (`review['number'] =
review.pop('_number')`); the `revisions` values are left untouched. -/
structure HttpReview where
  branch : String
  change_id : String
  current_revision : String
  number : Int
  revisions : List (String × RestRevisionInfo)
  subject : String
  project : String
  status : String
deriving DecidableEq, Repr

/-- From the source: `fetch_query_via_http`'s per-record rename loop. -/
def parseHttpReview (d : RestChangeData) : HttpReview :=
  { branch := d.branch
    change_id := d.change_id
    current_revision := d.current_revision
    number := d._number
    revisions := d.revisions
    subject := d.subject
    project := d.project
    status := d.status }

/-! ## Selection-mode validation

```python
if (1 << bool(args.change_number) << bool(args.topic) << bool(args.query)) != 2:
    parser.error('One (and only one) of change_number, topic, and query are allowed')
```
-/

/-- The source's shift expression
`1 << bool(change_number) << bool(topic) << bool(query)`. -/
def selectionWord (c t q : Bool) : Nat :=
  ((1 <<< c.toNat) <<< t.toNat) <<< q.toNat

/-- The selection-mode check: `parser.error` (exit before any network
call — the validation consults only the parsed arguments) unless the shift
expression equals 2. -/
def validateSelection (change_number : List String) (topic query : Option String) :
    Except PyErr Unit :=
  if selectionWord (pyTruthyList change_number) (pyTruthyOpt topic) (pyTruthyOpt query) != 2 then
    Except.error PyErr.argparseError
  else
    Except.ok ()

/-- The gerrit query string built in change-number mode:
`' OR '.join('change:{0}'.format(x.split('/')[0]) for x in args.change_number)`. -/
def changeNumberQuery (change_number : List String) : String :=
  pyJoin " OR " (change_number.map fun x => "change:" ++ (pySplit x '/').headD "")

/-- The `reviews` / `change_numbers` assignment phase of `__main__`, with
the network fetch abstracted as `fetchFn` (the reviews `fetch_query`
returns for a query string).  Runs only after `validateSelection`
succeeds; mirrors the three sequential `if` statements of the source. -/
def selectChanges (fetchFn : String → List Review) (change_number : List String)
    (topic query : Option String) : Except PyErr (List Review × List String) := do
  validateSelection change_number topic query
  let rc : List Review × List String := ([], [])
  let rc :=
    if pyTruthyOpt topic then
      let rs := fetchFn ("topic:" ++ topic.getD "")
      (rs, rs.map fun r => toString r.number)
    else rc
  let rc :=
    if pyTruthyOpt query then
      let rs := fetchFn (query.getD "")
      (rs, rs.map fun r => toString r.number)
    else rc
  let rc :=
    if pyTruthyList change_number then
      (fetchFn (changeNumberQuery change_number), change_number)
    else rc
  Except.ok rc

/-! ## Change Selector (the `mergables` loop)

```python
for change in change_numbers:
    patchset = None
    if '/' in change:
        (change, patchset) = change.split('/')
    change = int(change)
    review = [x for x in reviews if x['number'] == change][0]
    mergables.append({... 'fetch': None})
    mergables[-1]['fetch'] = review['revisions'][review['current_revision']]['fetch']
    mergables[-1]['id'] = change
    if patchset:
        try:
            mergables[-1]['fetch'] = [x['fetch'] for x in review['revisions'] if x['_number'] == patchset][0]
            mergables[-1]['id'] = '{0}/{1}'.format(change, patchset)
        except (IndexError, ValueError):
            print('ERROR: The patch set {0}/{1} could not be found, ...')
```
-/

/-- The display id of a Mergable: the bare change number (a Python int) or
the compound `'N/P'` string. -/
inductive PyId where
  | int (n : Int)
  | str (s : String)
deriving DecidableEq, Repr

/-- One resolved patch to apply. -/
structure Mergable where
  subject : String
  project : String
  branch : String
  change_number : Int
  status : String
  fetch : FetchInfo
  id : PyId
deriving DecidableEq, Repr

/-- `[x for x in reviews if x['number'] == change][0]`: indexing the empty
filter result raises an uncaught `IndexError`. -/
def pickReview (reviews : List Review) (change : Int) : Except PyErr Review :=
  match reviews.filter (fun r => r.number == change) with
  | [] => Except.error PyErr.indexError
  | r :: _ => Except.ok r

/-- The body of the `mergables` loop after the token has been split into a
change-number string and an optional patch-set string.  The `Bool` in the
result records whether the patch-set-not-found warning was printed.

In the explicit patch-set branch, the comprehension
`[x['fetch'] for x in review['revisions'] if x['_number'] == patchset]`
iterates the `revisions` dict, so each `x` is a *key* — a revision-hash
string — and `x['_number']` indexes a string with a string, raising a
`TypeError` on the first element whenever the dict is non-empty.
`TypeError` is not among the caught exceptions `(IndexError, ValueError)`;
only for an empty dict does the comprehension produce `[]`, whose `[0]`
raises the caught `IndexError` (warning printed, current-revision fetch and
bare id kept). -/
def mergableCore (reviews : List Review) (changeStr : String)
    (patchset : Option String) : Except PyErr (Mergable × Bool) := do
  let change ← pyInt changeStr
  let review ← pickReview reviews change
  let cur ←
    match dictGet review.revisions review.current_revision with
    | some ri => Except.ok ri
    | none => Except.error PyErr.keyError
  let m : Mergable :=
    { subject := review.subject
      project := review.project
      branch := review.branch
      change_number := review.number
      status := review.status
      fetch := cur.fetch
      id := PyId.int change }
  match patchset with
  | some p =>
    if pyTruthyStr p then
      match review.revisions with
      | [] => Except.ok (m, true)
      | _ :: _ => Except.error PyErr.typeError
    else Except.ok (m, false)
  | none => Except.ok (m, false)

/-- One iteration of the `mergables` loop: split the raw token on `'/'`
when it contains one (tuple unpacking of anything but exactly two parts
raises `ValueError`), then run `mergableCore`. -/
def buildMergable (reviews : List Review) (tok : String) :
    Except PyErr (Mergable × Bool) :=
  if tok.data.contains '/' then
    match pySplit tok '/' with
    | [c, p] => mergableCore reviews c (some p)
    | _ => Except.error PyErr.valueError
  else
    mergableCore reviews tok none

/-- The whole `mergables` loop. -/
def buildMergables (reviews : List Review) (change_numbers : List String) :
    Except PyErr (List (Mergable × Bool)) :=
  change_numbers.mapM (buildMergable reviews)

/-! ## Path Resolver

```python
project_path = None
if item['project'] in project_name_to_path:
    project_path = project_name_to_path[item['project']]
    if project_path.startswith('hardware/qcom/'):
        split_path = project_path.split('/')
        split_path[2] = split_path[2].split('-')[0]
        if split_path[2] == 'audio' or split_path[2] == 'display' or split_path[2] == 'media':
            split_branch = item['branch'].split('-')
            if split_path[2] == 'display' and len(split_path) == 3:
                project_path = '/'.join(split_path)
            else:
                project_path = '/'.join(split_path[:-1])
            if len(split_branch) == 4 and split_branch[0] == 'bliss' and split_branch[2] == 'caf':
                project_path += '-caf/msm' + split_branch[3]
            elif split_path[2] == 'audio' or split_path[2] == 'media':
                project_path += '/default'
elif args.ignore_missing:
    print('WARNING: Skipping {0} ...'); continue
else:
    sys.stderr.write('ERROR: ...'); sys.exit(1)
```
-/

/-- The qcom vendor rewriting applied to a successfully mapped path.  A
path passing the `hardware/qcom/` test contains at least two `'/'`, so its
split has at least three segments and the source's `split_path[2]`
accesses are in range; they are embedded with `List.getD`/`List.set`,
which agree with Python indexing on that domain. -/
def rewriteProjectPath (project_path : String) (branch : String) : String :=
  if pyStartswith project_path "hardware/qcom/" then
    let sp := pySplit project_path '/'
    let split_path := sp.set 2 (((pySplit (sp.getD 2 "") '-')).headD "")
    let c := split_path.getD 2 ""
    if c == "audio" || c == "display" || c == "media" then
      let split_branch := pySplit branch '-'
      let base :=
        if c == "display" && split_path.length == 3 then
          pyJoin "/" split_path
        else
          pyJoin "/" split_path.dropLast
      if split_branch.length == 4 && split_branch.getD 0 "" == "bliss"
          && split_branch.getD 2 "" == "caf" then
        base ++ "-caf/msm" ++ split_branch.getD 3 ""
      else if c == "audio" || c == "media" then
        base ++ "/default"
      else
        base
    else
      project_path
  else
    project_path

/-- Outcome of the project-path block for one Mergable. -/
inductive ItemOutcome where
  /-- The project was mapped; processing continues with this path. -/
  | proceed (project_path : String)
  /-- `--ignore-missing`: warning printed, `continue` to the next Mergable. -/
  | skipWarning
  /-- No mapping and no `--ignore-missing`: `sys.exit(code)` after an error
  message on stderr. -/
  | fatalExit (code : Nat)
deriving DecidableEq, Repr

/-- The project-path lookup / rewrite / error block of the apply loop. -/
def resolveProjectPath (project_name_to_path : List (String × String))
    (project branch : String) (ignore_missing : Bool) : ItemOutcome :=
  match dictGet project_name_to_path project with
  | some p => ItemOutcome.proceed (rewriteProjectPath p branch)
  | none =>
    if ignore_missing then ItemOutcome.skipWarning
    else ItemOutcome.fatalExit 1

/-- A minimal concrete review (change number 12, one patch set) used as
input for the concrete evaluations below. -/
def sampleReview : Review :=
  { branch := "bliss-9.0"
    change_id := "Iabcdef"
    current_revision := "deadbeef"
    number := 12
    revisions := [("deadbeef",
      { number := 1
        fetch := [("ssh", { ref := "refs/changes/12/1", url := "ssh://h:29418/p" })] })]
    subject := "Fix a bug"
    project := "platform/foo"
    status := "NEW" }

/-! ## Decimal-numeral lemmas

`str(n)` / `int(s)` facts used below: the decimal rendering of an integer
consists of digits (possibly after a leading `'-'`), so it never contains
`'/'`, and `pyInt` inverts it.
-/

/-- `Nat.toDigitsCore`'s digit list as a standalone recursion on the
number. -/
def digitsAux (n : Nat) : List Char :=
  if n / 10 = 0 then [Nat.digitChar (n % 10)]
  else digitsAux (n / 10) ++ [Nat.digitChar (n % 10)]
termination_by n
decreasing_by omega

theorem toDigitsCore_eq_digitsAux :
    ∀ (fuel n : Nat) (ds : List Char), n < fuel →
      Nat.toDigitsCore 10 fuel n ds = digitsAux n ++ ds := by
  intro fuel
  induction fuel with
  | zero => intro n ds h; omega
  | succ fuel ih =>
    intro n ds h
    by_cases h10 : n / 10 = 0
    · simp only [Nat.toDigitsCore, h10, if_true, reduceIte]
      rw [digitsAux, if_pos h10, List.singleton_append]
    · simp only [Nat.toDigitsCore, h10, if_false, reduceIte]
      rw [ih (n / 10) _ (by omega)]
      conv_rhs => rw [digitsAux]
      rw [if_neg h10, List.append_assoc, List.singleton_append]

theorem repr_data (n : Nat) : (Nat.repr n).data = digitsAux n := by
  show (Nat.toDigitsCore 10 (n + 1) n []).asString.data = _
  rw [toDigitsCore_eq_digitsAux (n + 1) n [] (Nat.lt_succ_self n), List.append_nil]
  rfl

theorem digitVal_digitChar : ∀ d : Nat, d < 10 → digitVal (Nat.digitChar d) = some d := by
  decide

theorem digitChar_isDigit : ∀ d : Nat, d < 10 → (Nat.digitChar d).isDigit = true := by
  decide

theorem mem_digitsAux_isDigit (n : Nat) : ∀ c ∈ digitsAux n, c.isDigit = true := by
  induction n using digitsAux.induct with
  | case1 n h =>
    rw [digitsAux, if_pos h]
    intro c hc
    rw [List.mem_singleton] at hc
    subst hc
    exact digitChar_isDigit _ (Nat.mod_lt _ (by omega))
  | case2 n h ih =>
    rw [digitsAux, if_neg h]
    intro c hc
    rcases List.mem_append.1 hc with h1 | h2
    · exact ih c h1
    · rw [List.mem_singleton] at h2
      subst h2
      exact digitChar_isDigit _ (Nat.mod_lt _ (by omega))

theorem digitsAux_ne_nil (n : Nat) : digitsAux n ≠ [] := by
  rw [digitsAux]
  split <;> simp

theorem parseNatCore_digitChar (d : Nat) (hd : d < 10) (cs : List Char) (acc : Nat) :
    parseNatCore (Nat.digitChar d :: cs) acc = parseNatCore cs (acc * 10 + d) := by
  simp [parseNatCore, digitVal_digitChar d hd]

theorem parseNatCore_digitsAux (n : Nat) :
    ∀ (rest : List Char) (acc : Nat),
      parseNatCore (digitsAux n ++ rest) acc =
        parseNatCore rest (acc * 10 ^ (digitsAux n).length + n) := by
  induction n using digitsAux.induct with
  | case1 n h =>
    intro rest acc
    rw [digitsAux, if_pos h, List.singleton_append,
      parseNatCore_digitChar _ (Nat.mod_lt _ (by omega))]
    have hn : n % 10 = n := by omega
    simp [hn]
  | case2 n h ih =>
    intro rest acc
    rw [digitsAux, if_neg h, List.append_assoc, ih, List.singleton_append,
      parseNatCore_digitChar _ (Nat.mod_lt _ (by omega))]
    congr 1
    rw [List.length_append, List.length_singleton]
    have key : (acc * 10 ^ (digitsAux (n / 10)).length + n / 10) * 10 + n % 10 =
        acc * (10 ^ (digitsAux (n / 10)).length * 10) + (10 * (n / 10) + n % 10) := by
      ring
    rw [key, Nat.div_add_mod, ← pow_succ]

theorem parseNatCore_repr (n : Nat) : parseNatCore (Nat.repr n).data 0 = some n := by
  rw [repr_data]
  have h := parseNatCore_digitsAux n [] 0
  rw [List.append_nil] at h
  rw [h]
  simp [parseNatCore]

theorem no_slash_of_mem_repr (n : Nat) : '/' ∉ (Nat.repr n).data := by
  intro hmem
  rw [repr_data] at hmem
  have := mem_digitsAux_isDigit n '/' hmem
  exact absurd this (by decide)

theorem repr_head_not_dash (n : Nat) :
    ∀ c cs, (Nat.repr n).data = c :: cs → c ≠ '-' := by
  intro c cs hdata hc
  have hmem : c ∈ (Nat.repr n).data := by rw [hdata]; exact List.mem_cons_self _ _
  rw [repr_data] at hmem
  have := mem_digitsAux_isDigit n c hmem
  rw [hc] at this
  exact absurd this (by decide)

theorem pyInt_toString_nat (m : Nat) : pyInt (toString m) = Except.ok (m : Int) := by
  show pyInt (Nat.repr m) = Except.ok (m : Int)
  obtain ⟨c, cs, hcons⟩ : ∃ c cs, (Nat.repr m).data = c :: cs := by
    cases h : (Nat.repr m).data with
    | nil =>
      rw [repr_data] at h
      exact absurd h (digitsAux_ne_nil m)
    | cons c cs => exact ⟨c, cs, rfl⟩
  have hne : c ≠ '-' := repr_head_not_dash m c cs hcons
  have hparse : parseNatCore (c :: cs) 0 = some m := by
    rw [← hcons]; exact parseNatCore_repr m
  simp only [pyInt, hcons]
  rw [if_neg hne, hparse]

theorem pyInt_toString_int (i : Int) : pyInt (toString i) = Except.ok i := by
  cases i with
  | ofNat m => exact pyInt_toString_nat m
  | negSucc m =>
    show pyInt ("-" ++ Nat.repr (m + 1)) = Except.ok (Int.negSucc m)
    have hdata : ("-" ++ Nat.repr (m + 1)).data = '-' :: (Nat.repr (m + 1)).data := by
      rw [String.data_append]
      rfl
    have hne : (Nat.repr (m + 1)).data ≠ [] := by
      rw [repr_data]
      exact digitsAux_ne_nil (m + 1)
    simp only [pyInt, hdata, reduceIte]
    rw [if_neg hne, parseNatCore_repr]
    rfl

theorem toString_int_no_slash (i : Int) : ((toString i).data.contains '/') = false := by
  have hmem : '/' ∉ (toString i).data := by
    cases i with
    | ofNat m => exact no_slash_of_mem_repr m
    | negSucc m =>
      show '/' ∉ ("-" ++ Nat.repr (m + 1)).data
      rw [String.data_append]
      intro hmem
      rcases List.mem_append.1 hmem with h1 | h2
      · exact absurd h1 (by decide)
      · exact no_slash_of_mem_repr (m + 1) h2
  simpa using hmem

/-! ## Auxiliary lemmas about the embedded functions -/

/-- The first branch of `fetch_query` compares the two-character slice
`remote_url[0:2]` with the three-character string `'ssh'`, so it can never
be taken: no URL routes to the SSH transport. -/
theorem fetchQueryRoute_never_ssh (remote_url : String) :
    fetchQueryRoute remote_url ≠ Except.ok Transport.ssh := by
  intro h
  unfold fetchQueryRoute at h
  split at h
  · rename_i hc
    have hdata : (pySlice remote_url 0 2).data = "ssh".data :=
      congrArg String.data (eq_of_beq hc)
    have hlen : (pySlice remote_url 0 2).data.length ≤ 2 := by
      simp [pySlice]
    rw [hdata] at hlen
    simp at hlen
  · split at h
    · exact absurd (Except.ok.inj h) (by simp)
    · exact Except.noConfusion h

/-- `validateSelection` in closed form: it succeeds exactly when the three
truthiness bits sum to one. -/
theorem validateSelection_eq (cn : List String) (t q : Option String) :
    validateSelection cn t q =
      if ((pyTruthyList cn).toNat + (pyTruthyOpt t).toNat + (pyTruthyOpt q).toNat == 1)
      then Except.ok () else Except.error PyErr.argparseError := by
  have hword : ∀ b1 b2 b3 : Bool,
      (selectionWord b1 b2 b3 != 2) = !(b1.toNat + b2.toNat + b3.toNat == 1) := by
    decide
  unfold validateSelection
  rw [hword]
  cases h : ((pyTruthyList cn).toNat + (pyTruthyOpt t).toNat + (pyTruthyOpt q).toNat == 1) <;>
    simp [h]

theorem except_bind_ok {α β : Type} (a : α) (f : α → Except PyErr β) :
    (Except.ok a >>= f) = f a :=
  rfl

theorem except_bind_err {α β : Type} (e : PyErr) (f : α → Except PyErr β) :
    ((Except.error e : Except PyErr α) >>= f) = Except.error e :=
  rfl

/-- Evaluating `parseSshPatchSet` on the wire encoding of a patch-set list
succeeds and produces the expected `revisions` entries. -/
theorem mapM_parseSshPatchSet (userhost port project : String) (l : List PatchSet) :
    List.mapM (parseSshPatchSet userhost port project)
        (l.map fun ps =>
          ({ revision := ps.revision, number := toString ps.number, ref := ps.ref } :
            SshPatchSetData))
      = Except.ok (l.map fun ps => (ps.revision,
          ({ number := ps.number
             fetch := [("ssh",
               { ref := ps.ref
                 url := "ssh://" ++ userhost ++ ":" ++ port ++ "/" ++ project })] } :
            RevisionInfo))) := by
  induction l with
  | nil => rfl
  | cons ps l ih =>
    rw [List.map_cons, List.mapM_cons]
    have hf : parseSshPatchSet userhost port project
        { revision := ps.revision, number := toString ps.number, ref := ps.ref }
        = Except.ok (ps.revision,
            ({ number := ps.number
               fetch := [("ssh",
                 { ref := ps.ref
                   url := "ssh://" ++ userhost ++ ":" ++ port ++ "/" ++ project })] } :
              RevisionInfo)) := by
      unfold parseSshPatchSet
      rw [pyInt_toString_int, except_bind_ok]
    rw [hf, except_bind_ok, ih, except_bind_ok]
    rfl

/-! ## The claims -/

/-- C1, counterexample: on project path `hardware/qcom/display-caf` and
branch `bliss-9.0-caf-msm8998` the rewriting does *not* yield
`hardware/qcom/display`; the CAF suffix branch still fires and the result
is `hardware/qcom/display-caf/msmmsm8998`. -/
theorem c1_display_caf_counterexample :
    rewriteProjectPath "hardware/qcom/display-caf" "bliss-9.0-caf-msm8998"
        = "hardware/qcom/display-caf/msmmsm8998" ∧
    (rewriteProjectPath "hardware/qcom/display-caf" "bliss-9.0-caf-msm8998"
        == "hardware/qcom/display") = false :=
  ⟨rfl, rfl⟩

/-- C1, amended: for project path `hardware/qcom/display-caf` and branch
`bliss-9.0-caf-msm8998`, the normalized third segment is `display` and the
path has 3 segments, so the base path is kept as `hardware/qcom/display`;
but the CAF suffix logic is a sibling branch, not nested under the
display case, so the matching 4-token bliss/caf branch still appends
`-caf/msm` + token[3] (`msm8998`), giving
`hardware/qcom/display-caf/msmmsm8998`. -/
theorem c1_display_caf_rewrite_amended :
    pySplit "hardware/qcom/display-caf" '/' = ["hardware", "qcom", "display-caf"] ∧
    (pySplit "display-caf" '-').headD "" = "display" ∧
    pySplit "bliss-9.0-caf-msm8998" '-' = ["bliss", "9.0", "caf", "msm8998"] ∧
    rewriteProjectPath "hardware/qcom/display-caf" "bliss-9.0-caf-msm8998"
        = "hardware/qcom/display-caf/msmmsm8998" :=
  ⟨rfl, rfl, rfl, rfl⟩

/-- C2, counterexample: on project path `hardware/qcom/audio-caf/something`
and branch `bliss-9.0-caf-msm8998` the result is not
`hardware/qcom/audio-caf/msm8998`: the literal `msm` is prepended to branch
token[3] = `msm8998`, giving `hardware/qcom/audio-caf/msmmsm8998`. -/
theorem c2_audio_caf_counterexample :
    rewriteProjectPath "hardware/qcom/audio-caf/something" "bliss-9.0-caf-msm8998"
        = "hardware/qcom/audio-caf/msmmsm8998" ∧
    (rewriteProjectPath "hardware/qcom/audio-caf/something" "bliss-9.0-caf-msm8998"
        == "hardware/qcom/audio-caf/msm8998") = false :=
  ⟨rfl, rfl⟩

/-- C2, amended: for project path `hardware/qcom/audio-caf/something` and
branch `bliss-9.0-caf-msm8998`, the third segment normalizes to `audio`,
the path is truncated to `hardware/qcom/audio`, and the matching 4-token
bliss/caf branch appends `-caf/msm` + token[3]; since token[3] is
`msm8998`, the final path is `hardware/qcom/audio-caf/msmmsm8998`. -/
theorem c2_audio_caf_rewrite_amended :
    (pySplit "audio-caf" '-').headD "" = "audio" ∧
    pyJoin "/" (["hardware", "qcom", "audio", "something"].dropLast) = "hardware/qcom/audio" ∧
    rewriteProjectPath "hardware/qcom/audio-caf/something" "bliss-9.0-caf-msm8998"
        = "hardware/qcom/audio-caf/msmmsm8998" :=
  ⟨rfl, rfl, rfl⟩

/-- C5: `fetch_query` on an `ssh://` URL does not dispatch to the SSH
transport — it raises the malformed-URL exception, because the code
compares the two-character slice `remote_url[0:2]` against `'ssh'`.
HTTP and HTTPS URLs dispatch to the HTTP REST path, and other schemes
raise the same fatal error, as claimed. -/
theorem c5_fetch_query_dispatch :
    fetchQueryRoute "ssh://user@host:29418/platform" = Except.error PyErr.configError ∧
    fetchQueryRoute "http://review.blissroms.com" = Except.ok Transport.http ∧
    fetchQueryRoute "https://gerrit.example.org/r" = Except.ok Transport.http ∧
    fetchQueryRoute "ftp://mirror.example.org" = Except.error PyErr.configError :=
  ⟨rfl, rfl, rfl, rfl⟩

/-- C3: requesting patch set `12/3` against a review whose `revisions`
dict is non-empty (revision `deadbeef`, patch set 1, so no patch set 3
exists) aborts with an uncaught `TypeError` instead of warning and falling
back: the comprehension iterates the dict's string keys and indexes them
with `'_number'`.  The whole `mergables` loop therefore dies, too. -/
theorem c3_patchset_fallback_typeerror :
    buildMergable [sampleReview] "12/3" = Except.error PyErr.typeError ∧
    buildMergables [sampleReview] ["12/3"] = Except.error PyErr.typeError :=
  ⟨rfl, rfl⟩

/-- C7: the qcom rewriting is a pure function — equal arguments give equal
results — and on any mapped path that does not start with
`hardware/qcom/` it returns the path unchanged, so reapplying it to its
own output is a no-op for non-qcom paths. -/
theorem c7_rewrite_pure_non_qcom (p b b2 : String)
    (h : pyStartswith p "hardware/qcom/" = false) :
    rewriteProjectPath p b = rewriteProjectPath p b ∧
    rewriteProjectPath p b = p ∧
    rewriteProjectPath (rewriteProjectPath p b) b2 = p := by
  have h1 : ∀ br, rewriteProjectPath p br = p := by
    intro br
    unfold rewriteProjectPath
    rw [h]
    simp
  exact ⟨rfl, h1 b, by rw [h1 b, h1 b2]⟩

/-- Witness for C7 at a concrete non-qcom path. -/
theorem c7_rewrite_pure_non_qcom_witness :
    pyStartswith "frameworks/base" "hardware/qcom/" = false ∧
    (rewriteProjectPath "frameworks/base" "bliss-9.0-caf-msm8998"
        = rewriteProjectPath "frameworks/base" "bliss-9.0-caf-msm8998" ∧
     rewriteProjectPath "frameworks/base" "bliss-9.0-caf-msm8998" = "frameworks/base" ∧
     rewriteProjectPath
        (rewriteProjectPath "frameworks/base" "bliss-9.0-caf-msm8998")
        "lineage-18.1" = "frameworks/base") :=
  ⟨rfl, c7_rewrite_pure_non_qcom "frameworks/base" "bliss-9.0-caf-msm8998" "lineage-18.1" rfl⟩

/-- C8: when the project name is absent from the project-name-to-path
mapping, the item outcome is `sys.exit(1)` without `--ignore-missing` and
a warning-and-skip with it. -/
theorem c8_missing_project_path (mapping : List (String × String))
    (project branch : String) (h : dictGet mapping project = none) :
    resolveProjectPath mapping project branch false = ItemOutcome.fatalExit 1 ∧
    resolveProjectPath mapping project branch true = ItemOutcome.skipWarning := by
  unfold resolveProjectPath
  rw [h]
  exact ⟨rfl, rfl⟩

/-- Witness for C8 on the empty mapping. -/
theorem c8_missing_project_path_witness :
    dictGet ([] : List (String × String)) "platform/foo" = none ∧
    (resolveProjectPath [] "platform/foo" "bliss-9.0" false = ItemOutcome.fatalExit 1 ∧
     resolveProjectPath [] "platform/foo" "bliss-9.0" true = ItemOutcome.skipWarning) :=
  ⟨rfl, c8_missing_project_path [] "platform/foo" "bliss-9.0" rfl⟩

/-- C9: a requested change number with zero matching reviews makes
`[x for x in reviews if x['number'] == change][0]` raise an uncaught
`IndexError`: the whole token's processing aborts with it. -/
theorem c9_zero_match_index_error (reviews : List Review) (n : Int)
    (h : reviews.filter (fun r => r.number == n) = []) :
    pickReview reviews n = Except.error PyErr.indexError ∧
    buildMergable reviews (toString n) = Except.error PyErr.indexError := by
  have hp : pickReview reviews n = Except.error PyErr.indexError := by
    unfold pickReview
    rw [h]
  refine ⟨hp, ?_⟩
  unfold buildMergable
  simp only [toString_int_no_slash n, Bool.false_eq_true, if_false]
  unfold mergableCore
  rw [pyInt_toString_int, except_bind_ok, hp, except_bind_err]

/-- Witness for C9 on the empty review list. -/
theorem c9_zero_match_index_error_witness :
    ([] : List Review).filter (fun r => r.number == (42 : Int)) = [] ∧
    (pickReview [] (42 : Int) = Except.error PyErr.indexError ∧
     buildMergable [] (toString (42 : Int)) = Except.error PyErr.indexError) :=
  ⟨rfl, c9_zero_match_index_error [] 42 rfl⟩

/-- C10: in topic mode and query mode (no positional change tokens), the
produced change tokens are exactly the decimal renderings of the fetched
reviews' numbers; such a token never contains `'/'`, so the explicit
patch-set branch of the mergables loop is unreachable and each token is
processed as a bare change number (current-revision fetch, integer display
id, no warning), as `mergableCore … none` does. -/
theorem c10_topic_query_bare_tokens (fetchFn : String → List Review)
    (cn : List String) (t q : Option String) (rvs : List Review) (toks : List String)
    (hok : selectChanges fetchFn cn t q = Except.ok (rvs, toks))
    (hcn : pyTruthyList cn = false) (tok : String) (htok : tok ∈ toks) :
    (tok.data.contains '/') = false ∧
    (∃ r, r ∈ rvs ∧ tok = toString r.number ∧ pyInt tok = Except.ok r.number) ∧
    buildMergable rvs tok = mergableCore rvs tok none := by
  have htoks : toks = rvs.map fun r => toString r.number := by
    unfold selectChanges at hok
    rw [validateSelection_eq] at hok
    cases hsum : ((pyTruthyList cn).toNat + (pyTruthyOpt t).toNat + (pyTruthyOpt q).toNat == 1) with
    | false =>
      rw [hsum] at hok
      simp only [Bool.false_eq_true, if_false, except_bind_err] at hok
      exact absurd hok (by simp)
    | true =>
      rw [hsum] at hok
      simp only [if_true, reduceIte, except_bind_ok] at hok
      rw [hcn] at hok
      simp only [Bool.false_eq_true, if_false, reduceIte] at hok
      cases hq : pyTruthyOpt q with
      | true =>
        rw [hq] at hok
        simp only [if_true, reduceIte] at hok
        obtain ⟨h1, h2⟩ := Prod.mk.injEq .. ▸ Except.ok.inj hok
        rw [← h1, ← h2]
      | false =>
        rw [hq] at hok
        simp only [Bool.false_eq_true, if_false, reduceIte] at hok
        cases ht : pyTruthyOpt t with
        | true =>
          rw [ht] at hok
          simp only [if_true, reduceIte] at hok
          obtain ⟨h1, h2⟩ := Prod.mk.injEq .. ▸ Except.ok.inj hok
          rw [← h1, ← h2]
        | false =>
          rw [hcn, ht, hq] at hsum
          simp at hsum
  rw [htoks] at htok
  obtain ⟨r, hr, hrtok⟩ := List.mem_map.1 htok
  subst hrtok
  refine ⟨toString_int_no_slash _, ⟨r, hr, rfl, pyInt_toString_int _⟩, ?_⟩
  unfold buildMergable
  simp only [toString_int_no_slash r.number, Bool.false_eq_true, if_false]

/-- Witness for C10 in topic mode against a one-review server. -/
theorem c10_topic_query_bare_tokens_witness :
    selectChanges (fun _ => [sampleReview]) [] (some "mytopic") none
        = Except.ok ([sampleReview], ["12"]) ∧
    pyTruthyList [] = false ∧
    "12" ∈ ["12"] ∧
    ((("12" : String).data.contains '/') = false ∧
     (∃ r, r ∈ [sampleReview] ∧ "12" = toString r.number ∧
       pyInt "12" = Except.ok r.number) ∧
     buildMergable [sampleReview] "12" = mergableCore [sampleReview] "12" none) :=
  ⟨rfl, rfl, by decide,
    c10_topic_query_bare_tokens (fun _ => [sampleReview]) [] (some "mytopic") none
      [sampleReview] ["12"] rfl rfl "12" (by decide)⟩

/-- C4: the selection phase accepts exactly the argument combinations in
which exactly one of {positional change list, `--topic`, `--query`} is
non-empty, and rejects every other combination with the `parser.error`
exit; the validation consults only the parsed arguments, never the fetch
function. -/
theorem c4_selection_mode_exactly_one (fetchFn : String → List Review)
    (cn : List String) (t q : Option String) :
    ((∃ out, selectChanges fetchFn cn t q = Except.ok out) ↔
      (pyTruthyList cn).toNat + (pyTruthyOpt t).toNat + (pyTruthyOpt q).toNat = 1) ∧
    ((selectChanges fetchFn cn t q = Except.error PyErr.argparseError) ↔
      (((pyTruthyList cn).toNat + (pyTruthyOpt t).toNat + (pyTruthyOpt q).toNat == 1)
        = false)) := by
  unfold selectChanges
  rw [validateSelection_eq]
  cases hsum : ((pyTruthyList cn).toNat + (pyTruthyOpt t).toNat + (pyTruthyOpt q).toNat == 1) with
  | true =>
    simp only [if_true, reduceIte, except_bind_ok]
    constructor
    · exact ⟨fun _ => beq_iff_eq.mp hsum, fun _ => ⟨_, rfl⟩⟩
    · simp
  | false =>
    simp only [Bool.false_eq_true, if_false, reduceIte, except_bind_err]
    constructor
    · constructor
      · rintro ⟨out, hout⟩
        exact Except.noConfusion hout
      · intro hs
        rw [hs] at hsum
        simp at hsum
    · simp

/-- C6: for every underlying Gerrit change, the SSH-transport parse
succeeds and agrees with the HTTP-transport parse on the uniform schema:
same `number`, same `branch`, same `current_revision`, and the same
`revisions` keys. -/
theorem c6_transport_schema_agreement (userhost port : String) (c : GerritChange) :
    ∃ r : Review,
      parseSshReview userhost port (sshWire c) = Except.ok r ∧
      r.number = (parseHttpReview (restWire c)).number ∧
      r.branch = (parseHttpReview (restWire c)).branch ∧
      r.current_revision = (parseHttpReview (restWire c)).current_revision ∧
      r.revisions.map Prod.fst = (parseHttpReview (restWire c)).revisions.map Prod.fst := by
  refine ⟨{ branch := c.branch
            change_id := c.id
            current_revision := c.currentPatchSet.revision
            number := c.number
            revisions := c.patchSets.map fun ps => (ps.revision,
              { number := ps.number
                fetch := [("ssh",
                  { ref := ps.ref
                    url := "ssh://" ++ userhost ++ ":" ++ port ++ "/" ++ c.project })] })
            subject := c.subject
            project := c.project
            status := c.status }, ?_, rfl, rfl, rfl, ?_⟩
  · unfold parseSshReview
    simp only [sshWire]
    rw [pyInt_toString_int, except_bind_ok, mapM_parseSshPatchSet, except_bind_ok]
  · simp [parseHttpReview, restWire, List.map_map]

end Repopick
